import Mathlib

/-!
Verification of the request-translation and response-extraction layer of a
local HTTP gateway (`src/backend/server.py`).  JSON values are modelled by
`JVal`; Python semantics (truthiness, `dict.get`, `or`, exceptions) are made
explicit, with Python exceptions modelled as `Except PyErr`.
-/

/-- Errors raised during request handling: an upstream HTTP error carrying a
status code and a decoded body, or any other Python exception with its
message.  -/
inductive PyErr where
  | httpError (code : Nat) (body : String)
  | exn (msg : String)

/-- A JSON value as produced by `json.loads`.  Integers are exact; a number
with a fractional part or exponent is kept as its source lexeme in `fnum`
(binary floating point semantics are out of scope).  -/
inductive JVal where
  | null
  | bool (b : Bool)
  | num (n : Int)
  | fnum (lexeme : String)
  | str (s : String)
  | arr (elems : List JVal)
  | obj (fields : List (String × JVal))

/-- Truth of a non-integer numeric lexeme: a float is falsy exactly when its
decimal value is zero, i.e. when it has digits and they are all zero. -/
def fnumTruthy (lexeme : String) : Bool :=
  !(lexeme.data.any Char.isDigit && (lexeme.data.filter Char.isDigit).all (fun c => c = '0'))

/-- Python truthiness of a JSON value. -/
def JVal.truthy : JVal → Bool
  | .null => false
  | .bool b => b
  | .num n => if n = 0 then false else true
  | .fnum lexeme => fnumTruthy lexeme
  | .str s => if s = "" then false else true
  | .arr [] => false
  | .arr (_ :: _) => true
  | .obj [] => false
  | .obj (_ :: _) => true

/-- Python `a or b`. -/
def pyOr (a b : JVal) : JVal := if a.truthy then a else b

/-- Lookup of a key in a JSON object's field list; a missing key gives
`None`, mirroring `dict.get`. -/
def lookupField : List (String × JVal) → String → JVal
  | [], _ => .null
  | (k, v) :: rest, key => if k = key then v else lookupField rest key

/-- Python `v.get(key)`: succeeds on dicts, raises `AttributeError` on every
other value. -/
def jget : JVal → String → Except PyErr JVal
  | .obj kvs, key => .ok (lookupField kvs key)
  | .null, _ => .error (.exn "AttributeError: NoneType has no attribute get")
  | _, _ => .error (.exn "AttributeError: value has no attribute get")

/-- Python `v[0]`: first element of a list, first character of a string;
anything else raises. -/
def pyIndexZero : JVal → Except PyErr JVal
  | .arr (x :: _) => .ok x
  | .arr [] => .error (.exn "IndexError: list index out of range")
  | .str s =>
      match s.data with
      | c :: _ => .ok (.str (String.mk [c]))
      | [] => .error (.exn "IndexError: string index out of range")
  | .obj _ => .error (.exn "KeyError: 0")
  | _ => .error (.exn "TypeError: value is not subscriptable")

/-- Python iteration: lists yield their elements, strings their characters,
dicts their keys; other values raise `TypeError`. -/
def pyIter : JVal → Except PyErr (List JVal)
  | .arr xs => .ok xs
  | .str s => .ok (s.data.map (fun c => .str (String.mk [c])))
  | .obj kvs => .ok (kvs.map (fun kv => .str kv.1))
  | _ => .error (.exn "TypeError: value is not iterable")

/-- Whether an `Except` computation finished without raising. -/
def isOkE {α : Type} : Except PyErr α → Bool
  | .ok _ => true
  | .error _ => false

/-- Python `"".join`: concatenation of a list of strings. -/
def pyJoin : List String → String
  | [] => ""
  | s :: rest => s ++ pyJoin rest

/-- The loop body of `_extract_text`: collect, in order, every `part.get("text")`
value that is a non-empty string; a non-dict part raises. -/
def collectTexts : List JVal → Except PyErr (List String)
  | [] => .ok []
  | part :: rest => do
      let t ← jget part "text"
      let chunks ← collectTexts rest
      match t with
      | .str s => if s = "" then pure chunks else pure (s :: chunks)
      | _ => pure chunks

/-- The loop body of `_extract_inline_data_base64`: return the first
`part.get("inlineData").get("data")` that is a non-empty string, else `""`. -/
def findInline : List JVal → Except PyErr String
  | [] => .ok ""
  | part :: rest => do
      let inl := pyOr (← jget part "inlineData") (.obj [])
      let d ← jget inl "data"
      match d with
      | .str s => if s = "" then findInline rest else pure s
      | _ => findInline rest

/-- `_extract_text` (server.py lines 89-99): concatenation of the text chunks
of `candidates[0].content.parts`, with every missing key degrading to an
empty default. -/
def extractText (resp : JVal) : Except PyErr String := do
  let candidates := pyOr (← jget resp "candidates") (.arr [])
  if candidates.truthy = false then
    pure ""
  else do
    let c0 ← pyIndexZero candidates
    let parts := pyOr (← jget (pyOr (← jget (pyOr c0 (.obj [])) "content") (.obj [])) "parts") (.arr [])
    let ps ← pyIter parts
    let chunks ← collectTexts ps
    pure (pyJoin chunks)

/-- `_extract_inline_data_base64` (server.py lines 102-112): data of the first
inline-data chunk of `candidates[0].content.parts`, defaulting to `""`. -/
def extractInlineBase64 (resp : JVal) : Except PyErr String := do
  let candidates := pyOr (← jget resp "candidates") (.arr [])
  if candidates.truthy = false then
    pure ""
  else do
    let c0 ← pyIndexZero candidates
    let parts := pyOr (← jget (pyOr (← jget (pyOr c0 (.obj [])) "content") (.obj [])) "parts") (.arr [])
    let ps ← pyIter parts
    findInline ps

/-- A character stripped by Python `str.strip()` (the Unicode whitespace set
used by `str.isspace`). -/
def isPyWs (c : Char) : Bool :=
  let n := c.toNat
  if n = 32 then true
  else if 9 ≤ n ∧ n ≤ 13 then true
  else if 28 ≤ n ∧ n ≤ 31 then true
  else if n = 133 ∨ n = 160 ∨ n = 5760 then true
  else if 8192 ≤ n ∧ n ≤ 8202 then true
  else if n = 8232 ∨ n = 8233 ∨ n = 8239 ∨ n = 8287 ∨ n = 12288 then true
  else false

/-- Python `str.strip()`. -/
def pyStripStr (s : String) : String :=
  String.mk (((s.data.dropWhile isPyWs).reverse.dropWhile isPyWs).reverse)

/-- Python `.strip()` as a method call: raises on non-strings. -/
def pyStrip : JVal → Except PyErr String
  | .str s => .ok (pyStripStr s)
  | _ => .error (.exn "AttributeError: value has no attribute strip")

/-- Python `content.replace("\n", "; ")` on a string. -/
def replaceNlStr (s : String) : String :=
  String.mk (s.data.foldr (fun c acc => if c = '\n' then ';' :: ' ' :: acc else c :: acc) [])

/-- Python `.replace("\n", "; ")` as a method call: raises on non-strings. -/
def pyReplaceNl : JVal → Except PyErr String
  | .str s => .ok (replaceNlStr s)
  | _ => .error (.exn "AttributeError: value has no attribute replace")

/-- Python slicing `s[:n]` (by code point, like Python). -/
def takeChars (n : Nat) (s : String) : String := String.mk (s.data.take n)

/-- Substring test on character lists. -/
def containsSubList (pat : List Char) : List Char → Bool
  | [] => pat.isEmpty
  | c :: rest => if pat.isPrefixOf (c :: rest) then true else containsSubList pat rest

/-- Whether `pat` occurs as a contiguous substring of `s`. -/
def containsSub (pat s : String) : Bool := containsSubList pat.data s.data

/-- Whether a JSON object has a field named `key`. -/
def hasKey : JVal → String → Bool
  | .obj kvs, key => kvs.any (fun kv => kv.1 = key)
  | _, _ => false

mutual

/-- Python `repr` for values interpolated inside containers: `None`, `True`,
decimal integers, quoted strings (quote escaping elided), bracketed lists and
brace-delimited dicts. -/
def pyRepr : JVal → String
  | .null => "None"
  | .bool true => "True"
  | .bool false => "False"
  | .num n => toString n
  | .fnum lexeme => lexeme
  | .str s => "\x27" ++ s ++ "\x27"
  | .arr xs => "[" ++ pyReprList xs ++ "]"
  | .obj kvs => "\x7b" ++ pyReprObj kvs ++ "\x7d"

/-- Comma-separated reprs of list elements. -/
def pyReprList : List JVal → String
  | [] => ""
  | [x] => pyRepr x
  | x :: rest => pyRepr x ++ ", " ++ pyReprList rest

/-- Comma-separated `key: value` reprs of dict items. -/
def pyReprObj : List (String × JVal) → String
  | [] => ""
  | [(k, v)] => "\x27" ++ k ++ "\x27: " ++ pyRepr v
  | (k, v) :: rest => "\x27" ++ k ++ "\x27: " ++ pyRepr v ++ ", " ++ pyReprObj rest

end

/-- Python `str()` as used by f-string interpolation. -/
def pyStr : JVal → String
  | .str s => s
  | v => pyRepr v

/-- Longest digit prefix of a character list, and the remainder. -/
def digitsSplit : List Char → (List Char × List Char)
  | [] => ([], [])
  | c :: rest =>
      if c.isDigit then
        let p := digitsSplit rest
        (c :: p.1, p.2)
      else ([], c :: rest)

/-- Decimal value of a digit list. -/
def natOfDigitsAux (acc : Nat) : List Char → Nat
  | [] => acc
  | c :: rest => natOfDigitsAux (acc * 10 + (c.toNat - 48)) rest

/-- Decimal value of a digit list. -/
def natOfDigits (ds : List Char) : Nat := natOfDigitsAux 0 ds

/-- Digit run with Python's underscore rule (an underscore must sit between
two digits); returns the digits with underscores removed. -/
def digitsUnd : List Char → Option (List Char)
  | [] => some []
  | '_' :: c :: rest => if c.isDigit then (digitsUnd rest).map (fun ds => c :: ds) else none
  | ['_'] => none
  | c :: rest => if c.isDigit then (digitsUnd rest).map (fun ds => c :: ds) else none

/-- Python `int(s)` on a string: strip, optional sign, digits with optional
underscores. -/
def strToInt (s : String) : Option Int :=
  let cs := (pyStripStr s).data
  let p : Bool × List Char :=
    match cs with
    | '-' :: r => (true, r)
    | '+' :: r => (false, r)
    | _ => (false, cs)
  match p.2 with
  | [] => none
  | c :: rest =>
      if c.isDigit then
        match digitsUnd rest with
        | some ds =>
            let m : Int := Int.ofNat (natOfDigits (c :: ds))
            some (if p.1 then -m else m)
        | none => none
      else none

/-- Truncation toward zero of the exact decimal value of a numeric lexeme
(the behaviour of Python `int()` on a finite float, up to binary rounding,
which is out of scope).  `NaN`/`Infinity` lexemes have no digits and fail. -/
def truncDecimal (lexeme : String) : Option Int :=
  let cs := lexeme.data
  let p : Bool × List Char := match cs with | '-' :: r => (true, r) | _ => (false, cs)
  let ip := digitsSplit p.2
  match ip.1 with
  | [] => none
  | _ :: _ =>
      let fp : List Char × List Char :=
        match ip.2 with
        | '.' :: r => digitsSplit r
        | _ => ([], ip.2)
      let eVal : Int :=
        match fp.2 with
        | 'e' :: r =>
            match r with
            | '-' :: r2 => -(Int.ofNat (natOfDigits (digitsSplit r2).1))
            | '+' :: r2 => Int.ofNat (natOfDigits (digitsSplit r2).1)
            | _ => Int.ofNat (natOfDigits (digitsSplit r).1)
        | 'E' :: r =>
            match r with
            | '-' :: r2 => -(Int.ofNat (natOfDigits (digitsSplit r2).1))
            | '+' :: r2 => Int.ofNat (natOfDigits (digitsSplit r2).1)
            | _ => Int.ofNat (natOfDigits (digitsSplit r).1)
        | _ => 0
      let mant : Nat := natOfDigits (ip.1 ++ fp.1)
      let shift : Int := eVal - Int.ofNat fp.1.length
      let mag : Nat :=
        if 0 ≤ shift then mant * 10 ^ shift.toNat else mant / 10 ^ (-shift).toNat
      some (if p.1 then -(Int.ofNat mag) else Int.ofNat mag)

/-- Python `int(v)`: exact on ints and bools, parses strings, truncates
floats, raises on everything else. -/
def pyInt : JVal → Except PyErr Int
  | .num n => .ok n
  | .bool b => .ok (if b then 1 else 0)
  | .str s =>
      match strToInt s with
      | some n => .ok n
      | none => .error (.exn "ValueError: invalid literal for int")
  | .fnum lexeme =>
      match truncDecimal lexeme with
      | some n => .ok n
      | none => .error (.exn "ValueError: cannot convert float to int")
  | _ => .error (.exn "TypeError: int argument must be a number or string")

/-- JSON whitespace (the four characters skipped by Python's json scanner). -/
def jsWsChar (c : Char) : Bool := c = ' ' || c = '\t' || c = '\n' || c = '\r'

/-- Skip JSON whitespace. -/
def skipWs : List Char → List Char
  | [] => []
  | c :: rest => if jsWsChar c then skipWs rest else c :: rest

/-- Value of a hexadecimal digit. -/
def hexVal (c : Char) : Option Nat :=
  let n := c.toNat
  if 48 ≤ n ∧ n ≤ 57 then some (n - 48)
  else if 97 ≤ n ∧ n ≤ 102 then some (n - 87)
  else if 65 ≤ n ∧ n ≤ 70 then some (n - 55)
  else none

/-- Value of a four-digit hexadecimal escape. -/
def hex4 (a b c d : Char) : Option Nat := do
  let x1 ← hexVal a
  let x2 ← hexVal b
  let x3 ← hexVal c
  let x4 ← hexVal d
  pure (((x1 * 16 + x2) * 16 + x3) * 16 + x4)

/-- Single-character JSON string escapes. -/
def escChar (e : Char) : Option Char :=
  if e = '"' then some '"'
  else if e = '\\' then some '\\'
  else if e = '/' then some '/'
  else if e = 'b' then some (Char.ofNat 8)
  else if e = 'f' then some (Char.ofNat 12)
  else if e = 'n' then some '\n'
  else if e = 'r' then some '\r'
  else if e = 't' then some '\t'
  else none

/-- Body of a JSON string after the opening quote: returns the decoded
characters and the input after the closing quote.  Strict mode: raw control
characters are rejected.  A `\uXXXX` escape in the surrogate range becomes
U+FFFD (a Lean character cannot hold a surrogate code point; combining of
escaped pairs is elided, no request or response in this development uses
them). -/
def parseStringBody : List Char → Option (List Char × List Char)
  | [] => none
  | c :: rest =>
    if c = '"' then some ([], rest)
    else if c = '\\' then
      match rest with
      | [] => none
      | e :: rest2 =>
        if e = 'u' then
          match rest2 with
          | h1 :: h2 :: h3 :: h4 :: rest3 =>
            match hex4 h1 h2 h3 h4 with
            | none => none
            | some cp =>
              if 55296 ≤ cp ∧ cp ≤ 57343 then
                (parseStringBody rest3).map (fun p => (Char.ofNat 65533 :: p.1, p.2))
              else
                (parseStringBody rest3).map (fun p => (Char.ofNat cp :: p.1, p.2))
          | _ => none
        else
          match escChar e with
          | some ch => (parseStringBody rest2).map (fun p => (ch :: p.1, p.2))
          | none => none
    else if c.toNat < 32 then none
    else (parseStringBody rest).map (fun p => (c :: p.1, p.2))

/-- A JSON number starting at the head of the input, per the JSON grammar
(no leading zeros; fraction and exponent digits required when introduced).
A plain integer becomes `num`; anything with a fraction or exponent keeps
its lexeme as `fnum`. -/
def parseNumber (cs : List Char) : Option (JVal × List Char) :=
  let sp : Bool × List Char := match cs with | '-' :: r => (true, r) | _ => (false, cs)
  let ip := digitsSplit sp.2
  match ip.1 with
  | [] => none
  | i0 :: irest =>
      if i0 = '0' ∧ irest ≠ [] then none
      else
        let fracP : Option (List Char × List Char) :=
          match ip.2 with
          | '.' :: r =>
              let fp := digitsSplit r
              match fp.1 with
              | [] => none
              | _ :: _ => some fp
          | _ => some ([], ip.2)
        match fracP with
        | none => none
        | some (fds, cs3) =>
            let expP : Option (List Char × List Char) :=
              match cs3 with
              | 'e' :: r =>
                  (match r with
                   | '-' :: r2 =>
                       let ep := digitsSplit r2
                       match ep.1 with
                       | [] => none
                       | _ :: _ => some ('e' :: '-' :: ep.1, ep.2)
                   | '+' :: r2 =>
                       let ep := digitsSplit r2
                       match ep.1 with
                       | [] => none
                       | _ :: _ => some ('e' :: '+' :: ep.1, ep.2)
                   | _ =>
                       let ep := digitsSplit r
                       match ep.1 with
                       | [] => none
                       | _ :: _ => some ('e' :: ep.1, ep.2))
              | 'E' :: r =>
                  (match r with
                   | '-' :: r2 =>
                       let ep := digitsSplit r2
                       match ep.1 with
                       | [] => none
                       | _ :: _ => some ('E' :: '-' :: ep.1, ep.2)
                   | '+' :: r2 =>
                       let ep := digitsSplit r2
                       match ep.1 with
                       | [] => none
                       | _ :: _ => some ('E' :: '+' :: ep.1, ep.2)
                   | _ =>
                       let ep := digitsSplit r
                       match ep.1 with
                       | [] => none
                       | _ :: _ => some ('E' :: ep.1, ep.2))
              | _ => some ([], cs3)
            match expP with
            | none => none
            | some (eds, rest) =>
                if fds = [] ∧ eds = [] then
                  let m : Int := Int.ofNat (natOfDigits (i0 :: irest))
                  some (.num (if sp.1 then -m else m), rest)
                else
                  let lexeme := String.mk
                    ((if sp.1 then ['-'] else []) ++ (i0 :: irest) ++
                     (if fds = [] then [] else '.' :: fds) ++ eds)
                  some (.fnum lexeme, rest)

/-- `d[key] = value` on an insertion-ordered dict: replace the value at the
first occurrence of the key, else append. -/
def insertKey : List (String × JVal) → String → JVal → List (String × JVal)
  | [], key, v => [(key, v)]
  | (k0, v0) :: rest, key, v =>
      if k0 = key then (k0, v) :: rest else (k0, v0) :: insertKey rest key v

mutual

/-- A JSON value, fuelled (the fuel bounds recursion depth; callers supply
more fuel than the input length can consume). -/
def parseVal : Nat → List Char → Option (JVal × List Char)
  | 0, _ => none
  | fuel + 1, cs =>
    match skipWs cs with
    | [] => none
    | c :: rest =>
      if c = '"' then (parseStringBody rest).map (fun p => (JVal.str (String.mk p.1), p.2))
      else if c = Char.ofNat 123 then
        match skipWs rest with
        | d :: rest2 =>
            if d = Char.ofNat 125 then some (.obj [], rest2)
            else parseObjItems fuel [] (d :: rest2)
        | [] => none
      else if c = '[' then
        match skipWs rest with
        | d :: rest2 =>
            if d = ']' then some (.arr [], rest2)
            else parseArrItems fuel [] (d :: rest2)
        | [] => none
      else
        match c :: rest with
        | 't' :: 'r' :: 'u' :: 'e' :: r => some (.bool true, r)
        | 'f' :: 'a' :: 'l' :: 's' :: 'e' :: r => some (.bool false, r)
        | 'n' :: 'u' :: 'l' :: 'l' :: r => some (.null, r)
        | 'N' :: 'a' :: 'N' :: r => some (.fnum "NaN", r)
        | 'I' :: 'n' :: 'f' :: 'i' :: 'n' :: 'i' :: 't' :: 'y' :: r => some (.fnum "Infinity", r)
        | '-' :: 'I' :: 'n' :: 'f' :: 'i' :: 'n' :: 'i' :: 't' :: 'y' :: r => some (.fnum "-Infinity", r)
        | cs2 => parseNumber cs2

/-- Comma-separated array items up to the closing bracket. -/
def parseArrItems : Nat → List JVal → List Char → Option (JVal × List Char)
  | 0, _, _ => none
  | fuel + 1, acc, cs =>
    match parseVal fuel cs with
    | none => none
    | some (v, r) =>
      match skipWs r with
      | ',' :: r2 => parseArrItems fuel (acc ++ [v]) r2
      | ']' :: r2 => some (.arr (acc ++ [v]), r2)
      | _ => none

/-- Comma-separated `"key": value` items up to the closing brace; a repeated
key keeps the last value at the first key's position, as a Python dict does. -/
def parseObjItems : Nat → List (String × JVal) → List Char → Option (JVal × List Char)
  | 0, _, _ => none
  | fuel + 1, acc, cs =>
    match skipWs cs with
    | [] => none
    | c :: rest =>
      if c = '"' then
        match parseStringBody rest with
        | none => none
        | some (kcs, r) =>
          match skipWs r with
          | ':' :: r2 =>
            (match parseVal fuel r2 with
             | none => none
             | some (v, r3) =>
               let acc2 := insertKey acc (String.mk kcs) v
               match skipWs r3 with
               | ',' :: r4 => parseObjItems fuel acc2 r4
               | d :: r4 => if d = Char.ofNat 125 then some (.obj acc2, r4) else none
               | [] => none)
          | _ => none
      else none

end

/-- Python `json.loads`: parse one JSON value and require only whitespace
after it. -/
def jsonLoads (s : String) : Option JVal :=
  match parseVal (2 * s.data.length + 4) s.data with
  | some (v, rest) =>
      match skipWs rest with
      | [] => some v
      | _ :: _ => none
  | none => none

/-- A response written by the gateway: either a `text/plain` body or a JSON
payload, with its HTTP status. -/
inductive GatewayResponse where
  | text (status : Nat) (body : String)
  | json (status : Nat) (payload : JVal)

/-- The Provider (`_gemini_generate_content` minus transport): takes the
model identifier and the request body, returns a parsed response envelope or
raises. -/
def ProviderFn : Type := JVal → JVal → Except PyErr JVal

/-- `OUTLINE_SYSTEM_INSTRUCTION` (server.py lines 24-37, after `.strip()`). -/
def outlineSystemInstruction : String :=
  "You are an elite presentation architect and visual storytelling expert.\n\nEach slide must have: \x27title\x27, \x27content\x27, \x27visualDescription\x27, and \x27layout\x27.\n\nLayout options:\n- \"center\", \"left\", \"right\", \"top\", \"bottom\", \"split-left\", \"split-right\", \"diagonal\", \"scattered\"\n\nRules:\n- NEVER use the same layout for consecutive slides.\n- Separate each content point with a newline character (\\n). Do not use markdown bullets.\n- Titles: max 8 words.\n- Visual descriptions must be text-free (no words/letters/logos/watermarks)."

/-- The request body shared by the outline and single-slide branches:
user contents, the fixed system instruction, and a JSON response mime type. -/
def geminiJsonBody (parts : List JVal) : JVal :=
  .obj [("contents", .arr [.obj [("role", .str "user"), ("parts", .arr parts)]]),
        ("systemInstruction", .obj [("role", .str "user"),
          ("parts", .arr [.obj [("text", .str outlineSystemInstruction)]])]),
        ("generationConfig", .obj [("responseMimeType", .str "application/json")])]

/-- The trailing instruction text of the outline request (server.py lines
143-149), for an already-stripped topic string. -/
def outlineInstr (topic : String) : String :=
  "Create a world-class, award-winning presentation deck for: " ++
    (if topic = "" then "the provided content" else topic) ++
    ".\nReturn ONLY valid JSON (no markdown) as an array of slides with title, content, visualDescription, layout."

/-- The attachment loop of the outline builder (server.py lines 139-140):
one `inlineData` part per attachment, in input order; a non-dict attachment
raises. -/
def attachmentLoop : List JVal → Except PyErr (List JVal)
  | [] => .ok []
  | f :: rest => do
      let m ← jget f "mimeType"
      let d ← jget f "data"
      let tail ← attachmentLoop rest
      pure (JVal.obj [("inlineData", .obj [("mimeType", m), ("data", d)])] :: tail)

/-- The `/api/outline-stream` builder (server.py lines 133-159): one
inline-data part per attachment, in order, then the instruction text part;
returns the model identifier and request body handed to the Provider. -/
def outlineRequest (payload : JVal) : Except PyErr (JVal × JVal) := do
  let topic ← pyStrip (pyOr (← jget payload "topic") (.str ""))
  let attachments := pyOr (← jget payload "attachments") (.arr [])
  let afs ← pyIter attachments
  let iparts ← attachmentLoop afs
  let parts := iparts ++ [JVal.obj [("text", .str (outlineInstr topic))]]
  pure (.str "gemini-2.5-pro", geminiJsonBody parts)

/-- The insertion-marker text emitted when `i == insert_index`. -/
def markerText : String := ">>> [INSERT NEW SLIDE HERE] <<<"

/-- The single-slide context loop (server.py lines 173-180): `i` runs from
the starting index to `len(existing_slides)` inclusive; each iteration may
emit the marker line and, when a slide remains, its one-line summary. -/
def contextLoop (insertIdx : Int) : Nat → List JVal → Except PyErr String
  | i, [] => pure (if (i : Int) = insertIdx then markerText ++ "\n" else "")
  | i, s :: rest => do
      let m := if (i : Int) = insertIdx then markerText ++ "\n" else ""
      let title := pyOr (← jget (pyOr s (.obj [])) "title") (.str "")
      let content ← pyReplaceNl (pyOr (← jget (pyOr s (.obj [])) "content") (.str ""))
      let tail ← contextLoop insertIdx (i + 1) rest
      pure (m ++ "Slide " ++ toString (i + 1) ++ ": " ++ pyStr title ++ " (" ++
            takeChars 120 content ++ "...)\n" ++ tail)

/-- The outline-context block (server.py lines 170-180): built only when
`existing_slides` is a non-empty list. -/
def singleSlideContextOutline (existingSlides : JVal) (insertIdx : Int) : Except PyErr String :=
  match existingSlides with
  | .arr (s :: rest) => do
      let body ← contextLoop insertIdx 0 (s :: rest)
      pure ("\nCurrent Presentation Outline:\n" ++ body)
  | _ => pure ""

/-- The `/api/single-slide` prompt (server.py lines 163-188), including the
coercion `int(payload.get("insertIndex") or -1)`. -/
def singleSlidePrompt (payload : JVal) : Except PyErr String := do
  let ptopic := pyOr (← jget payload "presentationTopic") (.str "")
  let sdesc := pyOr (← jget payload "slideDescription") (.str "")
  let existing := pyOr (← jget payload "existingSlides") (.arr [])
  let insertIdx ← pyInt (pyOr (← jget payload "insertIndex") (.num (-1)))
  let ctx ← singleSlideContextOutline existing insertIdx
  pure ("Presentation Topic: " ++ pyStr ptopic ++ "\n" ++ ctx ++
        "\nNew Slide Request: " ++ pyStr sdesc ++
        "\n\nCreate a single, award-winning slide that fits naturally.\nReturn ONLY valid JSON (no markdown) with keys: title, content, visualDescription, layout.")

/-- The single-slide response stage (server.py lines 198-205): strip the
extracted text, parse it as JSON; a parse failure yields a fixed 500 text
response, success forwards the parsed value with 200. -/
def singleSlideRespondRaw (raw : String) : GatewayResponse :=
  match jsonLoads (pyStripStr raw) with
  | none => .text 500 "Model did not return valid JSON"
  | some v => .json 200 v

/-- The `/api/single-slide` branch end to end. -/
def singleSlideStep (provider : ProviderFn) (payload : JVal) : Except PyErr GatewayResponse := do
  let prompt ← singleSlidePrompt payload
  let resp ← provider (.str "gemini-2.5-pro") (geminiJsonBody [JVal.obj [("text", .str prompt)]])
  let raw ← extractText resp
  pure (singleSlideRespondRaw raw)

/-- The `/api/outline-stream` branch end to end: the extracted text is
returned verbatim as plain text. -/
def outlineStep (provider : ProviderFn) (payload : JVal) : Except PyErr GatewayResponse := do
  let mb ← outlineRequest payload
  let resp ← provider mb.1 mb.2
  let t ← extractText resp
  pure (.text 200 t)

/-- `image_cfg` (server.py lines 222-224 and 253-255): `aspectRatio` with the
`"16:9"` fallback, and `imageSize` added only when truthy. -/
def imageConfigOf (config : JVal) : Except PyErr JVal := do
  let ar := pyOr (← jget config "aspectRatio") (.str "16:9")
  let im ← jget config "imageSize"
  pure (.obj (if im.truthy then [("aspectRatio", ar), ("imageSize", im)]
              else [("aspectRatio", ar)]))

/-- The `/api/slide-image` builder (server.py lines 207-231): prompt, image
config and model choice `config.get("model") or "gemini-2.5-flash-image"`. -/
def slideImageRequest (payload : JVal) : Except PyErr (JVal × JVal) := do
  let slide := pyOr (← jget payload "slide") (.obj [])
  let config := pyOr (← jget payload "config") (.obj [])
  let prompt := "Ultra-premium, award-winning presentation background image.\n\nVisual Concept: " ++
    pyStr (pyOr (← jget slide "visualDescription") (.str "")) ++
    "\nThematic Context: " ++ pyStr (pyOr (← jget slide "title") (.str "")) ++
    "\n\nABSOLUTE REQUIREMENTS:\n- ZERO text, words, letters, numbers, or characters\n- No watermarks, logos, or overlays\n- Suitable as a backdrop for text overlay\n"
  let icfg ← imageConfigOf config
  let model := pyOr (← jget config "model") (.str "gemini-2.5-flash-image")
  pure (model,
        .obj [("contents", .arr [.obj [("role", .str "user"), ("parts", .arr [.obj [("text", .str prompt)]])]]),
              ("generationConfig", .obj [("imageConfig", icfg)])])

/-- The `/api/slide-image` branch end to end: always responds with
`{"data": <extracted>}`. -/
def slideImageStep (provider : ProviderFn) (payload : JVal) : Except PyErr GatewayResponse := do
  let mb ← slideImageRequest payload
  let resp ← provider mb.1 mb.2
  pure (.json 200 (.obj [("data", .str (← extractInlineBase64 resp))]))

/-- The `/api/themed-background` builder (server.py lines 236-262). -/
def themedBackgroundRequest (payload : JVal) : Except PyErr (JVal × JVal) := do
  let theme := pyOr (← jget payload "theme") (.obj [])
  let pctx := pyOr (← jget payload "presentationContext") (.str "")
  let config := pyOr (← jget payload "config") (.obj [])
  let prompt := "Premium presentation background with consistent, cohesive visual theme.\n\nTHEME: " ++
    pyStr (pyOr (← jget theme "name") (.str "")) ++ "\n" ++
    pyStr (pyOr (← jget theme "promptSnippet") (.str "")) ++
    "\n\nPRESENTATION CONTEXT:\n" ++ pyStr (pyOr pctx (.str "Professional presentation")) ++
    "\n\nABSOLUTE REQUIREMENTS:\n- ZERO text, words, letters, numbers, or characters\n- No watermarks, logos, or overlays\n- Must work across many slides\n"
  let icfg ← imageConfigOf config
  let model := pyOr (← jget config "model") (.str "gemini-2.5-flash-image")
  pure (model,
        .obj [("contents", .arr [.obj [("role", .str "user"), ("parts", .arr [.obj [("text", .str prompt)]])]]),
              ("generationConfig", .obj [("imageConfig", icfg)])])

/-- The `/api/themed-background` branch end to end. -/
def themedBackgroundStep (provider : ProviderFn) (payload : JVal) : Except PyErr GatewayResponse := do
  let mb ← themedBackgroundRequest payload
  let resp ← provider mb.1 mb.2
  pure (.json 200 (.obj [("data", .str (← extractInlineBase64 resp))]))

/-- Python `mode == "translate"` on a JSON value. -/
def isStrEq (v : JVal) (s : String) : Bool :=
  match v with
  | .str t => if t = s then true else false
  | _ => false

/-- The `/api/enhance-notes` branch (server.py lines 267-287). -/
def enhanceNotesStep (provider : ProviderFn) (payload : JVal) : Except PyErr GatewayResponse := do
  let notes := pyOr (← jget payload "notes") (.str "")
  let mode := pyOr (← jget payload "mode") (.str "enhance")
  let targetLanguage ← jget payload "targetLanguage"
  let prompt := "Act as a professional presentation coach and speechwriter.\nImprove the following speaker notes based on the requested mode.\n\nOriginal Notes: \"" ++
    pyStr notes ++ "\"\n\nMode: " ++ pyStr mode ++ "\n" ++
    (if isStrEq mode "translate" && targetLanguage.truthy then
        "Target Language: " ++ pyStr targetLanguage ++ "\n"
     else "") ++
    "\nReturn ONLY the improved notes text. Do not include explanations."
  let resp ← provider (.str "gemini-2.5-pro")
    (.obj [("contents", .arr [.obj [("role", .str "user"), ("parts", .arr [.obj [("text", .str prompt)]])]])])
  let t ← extractText resp
  pure (.json 200 (.obj [("text", .str (pyStripStr t))]))

/-- The body of `do_POST`'s `try` block: path dispatch to the five branches,
`404` otherwise. -/
def postApi (provider : ProviderFn) (path : String) (payload : JVal) : Except PyErr GatewayResponse :=
  if path = "/api/outline-stream" then outlineStep provider payload
  else if path = "/api/single-slide" then singleSlideStep provider payload
  else if path = "/api/slide-image" then slideImageStep provider payload
  else if path = "/api/themed-background" then themedBackgroundStep provider payload
  else if path = "/api/enhance-notes" then enhanceNotesStep provider payload
  else pure (.text 404 "Not found")

/-- The `except` clauses of `do_POST` (server.py lines 290-294): an upstream
HTTP error is forwarded with `int(e.code or 500)` and `body or "Upstream
error"`; any other exception becomes `500` with `str(e) or "Server error"`. -/
def translateError : PyErr → GatewayResponse
  | .httpError code body =>
      .text (if code = 0 then 500 else code) (if body = "" then "Upstream error" else body)
  | .exn msg => .text 500 (if msg = "" then "Server error" else msg)

/-- `do_POST` as a whole: every raised error is converted to a response at
the dispatch boundary. -/
def dispatchPost (provider : ProviderFn) (path : String) (payload : JVal) : GatewayResponse :=
  match postApi provider path payload with
  | .ok r => r
  | .error e => translateError e

/-- A `Part` of the spec's data model: a text part or an inline-data part. -/
inductive EnvPart where
  | textPart (text : String)
  | inlineDataPart (mimeType : String) (data : String)

/-- JSON form of a part. -/
def EnvPart.toJVal : EnvPart → JVal
  | .textPart t => .obj [("text", .str t)]
  | .inlineDataPart m d => .obj [("inlineData", .obj [("mimeType", .str m), ("data", .str d)])]

/-- A provider response envelope whose single candidate holds the given
parts. -/
def mkEnvelope (parts : List EnvPart) : JVal :=
  .obj [("candidates", .arr [.obj [("content", .obj [("parts", .arr (parts.map EnvPart.toJVal))])]])]

/-- Spec side: the text fields of the text parts, in order. -/
def specTexts : List EnvPart → List String
  | [] => []
  | .textPart t :: rest => t :: specTexts rest
  | .inlineDataPart _ _ :: rest => specTexts rest

/-- Spec side, claim C3 as stated: the data field of the first inline-data
part, regardless of its content. -/
def specFirstInline : List EnvPart → String
  | [] => ""
  | .inlineDataPart _ d :: _ => d
  | .textPart _ :: rest => specFirstInline rest

/-- Spec side, amended: the data of the first inline-data part whose data is
a non-empty string. -/
def specFirstNonemptyInline : List EnvPart → String
  | [] => ""
  | .inlineDataPart _ d :: rest => if d = "" then specFirstNonemptyInline rest else d
  | .textPart _ :: rest => specFirstNonemptyInline rest

/-- A slide summary of the single-slide request. -/
structure SlideSummary where
  title : String
  content : String

/-- JSON form of a slide summary. -/
def slideJVal (s : SlideSummary) : JVal :=
  .obj [("title", .str s.title), ("content", .str s.content)]

/-- JSON form of a list of slide summaries. -/
def mkSlidesJVal (slides : List SlideSummary) : JVal := .arr (slides.map slideJVal)

/-- Spec side: the one-line summary of slide `i`, per the claim's template. -/
def specSummaryLine (i : Nat) (s : SlideSummary) : String :=
  "Slide " ++ toString (i + 1) ++ ": " ++ s.title ++ " (" ++
    takeChars 120 (replaceNlStr s.content) ++ "...)\n"

/-- Spec side: iterate `i` up to the slide count inclusive, emitting the
marker line whenever `i` equals the insert index and, independently, a
summary line while slides remain. -/
def specContextLoop (insertIdx : Int) : Nat → List SlideSummary → String
  | i, [] => if (i : Int) = insertIdx then markerText ++ "\n" else ""
  | i, s :: rest =>
      (if (i : Int) = insertIdx then markerText ++ "\n" else "") ++
      (specSummaryLine i s ++ specContextLoop insertIdx (i + 1) rest)

/-- Summary lines only, with no marker anywhere. -/
def plainSummaryLines : Nat → List SlideSummary → String
  | _, [] => ""
  | i, s :: rest => specSummaryLine i s ++ plainSummaryLines (i + 1) rest

/-- An outline attachment. -/
structure Attachment where
  mimeType : String
  data : String

/-- JSON form of an attachment as sent by the client. -/
def attachmentJVal (a : Attachment) : JVal :=
  .obj [("mimeType", .str a.mimeType), ("data", .str a.data)]

/-- The inline-data part the outline builder produces for an attachment. -/
def attachmentPart (a : Attachment) : JVal :=
  .obj [("inlineData", .obj [("mimeType", .str a.mimeType), ("data", .str a.data)])]

/-- An outline request payload. -/
def mkOutlinePayload (topic : String) (atts : List Attachment) : JVal :=
  .obj [("topic", .str topic), ("attachments", .arr (atts.map attachmentJVal))]

/-- An image config object with optional string-valued fields. -/
def mkImgConfig (ar im mo : Option String) : JVal :=
  .obj ((match ar with | some s => [("aspectRatio", JVal.str s)] | none => []) ++
        (match im with | some s => [("imageSize", JVal.str s)] | none => []) ++
        (match mo with | some s => [("model", JVal.str s)] | none => []))

/-- The string when present and non-empty, else the default. -/
def defaultIfEmpty (o : Option String) (d : String) : String :=
  match o with
  | some s => if s = "" then d else s
  | none => d

/-- A slide-image request payload. -/
def mkSlideImagePayload (vd ti : String) (ar im mo : Option String) : JVal :=
  .obj [("slide", .obj [("visualDescription", .str vd), ("title", .str ti)]),
        ("config", mkImgConfig ar im mo)]

/-- A themed-background request payload. -/
def mkThemedPayload (name snippet pctx : String) (ar im mo : Option String) : JVal :=
  .obj [("theme", .obj [("name", .str name), ("promptSnippet", .str snippet)]),
        ("presentationContext", .str pctx), ("config", mkImgConfig ar im mo)]

/-- A single-slide request payload with an arbitrary `insertIndex` value. -/
def mkSingleSlidePayload (topic desc : String) (slides : List SlideSummary) (idx : JVal) : JVal :=
  .obj [("presentationTopic", .str topic), ("slideDescription", .str desc),
        ("existingSlides", mkSlidesJVal slides), ("insertIndex", idx)]

/-- A part object on which the extractor loops cannot raise: a dict whose
`inlineData` field, after the `or` default, is a dict. -/
def partShapeOk : JVal → Bool
  | .obj kvs =>
      match pyOr (lookupField kvs "inlineData") (.obj []) with
      | .obj _ => true
      | _ => false
  | _ => false

/-- Envelopes on which both extractors run to completion: mirrors the
extraction prelude, requiring a dict or a defaulted falsy value at each
consulted position and a list of well-shaped parts. -/
def wellShaped (resp : JVal) : Bool :=
  match resp with
  | .obj kvs =>
    match pyOr (lookupField kvs "candidates") (.arr []) with
    | .arr [] => true
    | .arr (c0 :: _) =>
      match pyOr c0 (.obj []) with
      | .obj ckvs =>
        match pyOr (lookupField ckvs "content") (.obj []) with
        | .obj conkvs =>
          match pyOr (lookupField conkvs "parts") (.arr []) with
          | .arr ps => ps.all partShapeOk
          | _ => false
        | _ => false
      | _ => false
    | _ => false
  | _ => false

/-- Whether an `Except`-valued string result contains `pat` (errors count as
containing it, so a `false` answer certifies a clean, marker-free success). -/
def exceptHasSub (pat : String) (e : Except PyErr String) : Bool :=
  match e with
  | .ok s => containsSub pat s
  | .error _ => true

@[simp] theorem except_bind_ok {α β : Type} (a : α) (f : α → Except PyErr β) :
    (Except.ok a >>= f) = f a := rfl

@[simp] theorem except_bind_error {α β : Type} (e : PyErr) (f : α → Except PyErr β) :
    ((Except.error e : Except PyErr α) >>= f) = Except.error e := rfl

@[simp] theorem except_pure {α : Type} (a : α) :
    (pure a : Except PyErr α) = Except.ok a := rfl

theorem strAppend_assoc (a b c : String) : a ++ b ++ c = a ++ (b ++ c) := by
  apply String.ext
  simp [String.data_append, List.append_assoc]

theorem str_empty_append (s : String) : "" ++ s = s := by
  apply String.ext
  simp [String.data_append]

theorem pyOr_str (s : String) (b : JVal) :
    pyOr (.str s) b = if s = "" then b else .str s := by
  by_cases h : s = "" <;> simp [pyOr, JVal.truthy, h]

theorem pyOr_str_empty (s : String) : pyOr (.str s) (.str "") = .str s := by
  by_cases h : s = "" <;> simp [pyOr_str, h]

theorem pyStr_pyOr_empty (s : String) : pyStr (pyOr (.str s) (.str "")) = s := by
  rw [pyOr_str_empty]; rfl

theorem pyReplaceNl_pyOr (s : String) :
    pyReplaceNl (pyOr (.str s) (.str "")) = .ok (replaceNlStr s) := by
  rw [pyOr_str_empty]; rfl

theorem pyOr_arr_nil (l : List JVal) : pyOr (.arr l) (.arr []) = .arr l := by
  cases l <;> rfl

theorem extractText_env (ps : List JVal) :
    extractText (.obj [("candidates", .arr [.obj [("content", .obj [("parts", .arr ps)])]])]) =
      Except.bind (collectTexts ps) (fun chunks => .ok (pyJoin chunks)) := by
  cases ps <;> rfl

theorem extractInline_env (ps : List JVal) :
    extractInlineBase64 (.obj [("candidates", .arr [.obj [("content", .obj [("parts", .arr ps)])]])]) =
      findInline ps := by
  cases ps <;> rfl

theorem collectTexts_join (ps : List EnvPart) :
    ∃ chunks, collectTexts (ps.map EnvPart.toJVal) = .ok chunks ∧
      pyJoin chunks = pyJoin (specTexts ps) := by
  induction ps with
  | nil => exact ⟨[], rfl, rfl⟩
  | cons p rest ih =>
    obtain ⟨chunks, hc, hj⟩ := ih
    cases p with
    | textPart t =>
      by_cases ht : t = ""
      · refine ⟨chunks, ?_, ?_⟩
        · simp only [List.map, EnvPart.toJVal, collectTexts,
            show jget (JVal.obj [("text", JVal.str t)]) "text" = .ok (.str t) from rfl,
            except_bind_ok, hc, ht]
          rfl
        · simp only [specTexts, pyJoin, ht, hj, str_empty_append]
      · refine ⟨t :: chunks, ?_, ?_⟩
        · simp only [List.map, EnvPart.toJVal, collectTexts,
            show jget (JVal.obj [("text", JVal.str t)]) "text" = .ok (.str t) from rfl,
            except_bind_ok, hc, if_neg ht]
          rfl
        · simp only [specTexts, pyJoin, hj]
    | inlineDataPart m d =>
      refine ⟨chunks, ?_, ?_⟩
      · simp only [List.map, EnvPart.toJVal, collectTexts,
          show jget (JVal.obj [("inlineData", JVal.obj [("mimeType", JVal.str m), ("data", JVal.str d)])]) "text" = .ok JVal.null from rfl,
          except_bind_ok, hc]
        rfl
      · simp only [specTexts, hj]

theorem findInline_map (ps : List EnvPart) :
    findInline (ps.map EnvPart.toJVal) = .ok (specFirstNonemptyInline ps) := by
  induction ps with
  | nil => rfl
  | cons p rest ih =>
    cases p with
    | textPart t =>
      simp only [List.map, EnvPart.toJVal, findInline,
        show jget (JVal.obj [("text", JVal.str t)]) "inlineData" = .ok JVal.null from rfl,
        except_bind_ok]
      exact ih
    | inlineDataPart m d =>
      by_cases hd : d = ""
      · simp only [List.map, EnvPart.toJVal, findInline,
          show jget (JVal.obj [("inlineData", JVal.obj [("mimeType", JVal.str m), ("data", JVal.str d)])]) "inlineData" = .ok (JVal.obj [("mimeType", JVal.str m), ("data", JVal.str d)]) from rfl,
          except_bind_ok,
          show pyOr (JVal.obj [("mimeType", JVal.str m), ("data", JVal.str d)]) (JVal.obj []) = JVal.obj [("mimeType", JVal.str m), ("data", JVal.str d)] from rfl,
          show jget (JVal.obj [("mimeType", JVal.str m), ("data", JVal.str d)]) "data" = .ok (JVal.str d) from rfl,
          specFirstNonemptyInline, if_pos hd]
        exact ih
      · simp only [List.map, EnvPart.toJVal, findInline,
          show jget (JVal.obj [("inlineData", JVal.obj [("mimeType", JVal.str m), ("data", JVal.str d)])]) "inlineData" = .ok (JVal.obj [("mimeType", JVal.str m), ("data", JVal.str d)]) from rfl,
          except_bind_ok,
          show pyOr (JVal.obj [("mimeType", JVal.str m), ("data", JVal.str d)]) (JVal.obj []) = JVal.obj [("mimeType", JVal.str m), ("data", JVal.str d)] from rfl,
          show jget (JVal.obj [("mimeType", JVal.str m), ("data", JVal.str d)]) "data" = .ok (JVal.str d) from rfl,
          specFirstNonemptyInline, if_neg hd]
        rfl

theorem extractText_mkEnvelope (ps : List EnvPart) :
    extractText (mkEnvelope ps) = .ok (pyJoin (specTexts ps)) := by
  obtain ⟨chunks, hc, hj⟩ := collectTexts_join ps
  have henv := extractText_env (ps.map EnvPart.toJVal)
  rw [mkEnvelope, henv, hc]
  simp only [Except.bind, hj]

theorem extractInline_mkEnvelope (ps : List EnvPart) :
    extractInlineBase64 (mkEnvelope ps) = .ok (specFirstNonemptyInline ps) := by
  rw [mkEnvelope, extractInline_env, findInline_map]

theorem contextLoop_cons (idx : Int) (i : Nat) (s : SlideSummary) (rest : List JVal) :
    contextLoop idx i (slideJVal s :: rest) =
      Except.bind (contextLoop idx (i + 1) rest) (fun tail =>
        .ok ((if (i : Int) = idx then markerText ++ "\n" else "") ++ "Slide " ++
             toString (i + 1) ++ ": " ++ s.title ++ " (" ++
             takeChars 120 (replaceNlStr s.content) ++ "...)\n" ++ tail)) := by
  simp only [contextLoop,
    show pyOr (slideJVal s) (JVal.obj []) = slideJVal s from rfl,
    show jget (slideJVal s) "title" = .ok (.str s.title) from rfl,
    show jget (slideJVal s) "content" = .ok (.str s.content) from rfl,
    except_bind_ok, pyReplaceNl_pyOr, pyOr_str_empty,
    show pyStr (JVal.str s.title) = s.title from rfl]
  rfl

theorem contextLoop_map (idx : Int) (slides : List SlideSummary) :
    ∀ i : Nat, contextLoop idx i (slides.map slideJVal) = .ok (specContextLoop idx i slides) := by
  induction slides with
  | nil => intro i; rfl
  | cons s rest ih =>
    intro i
    rw [List.map, contextLoop_cons, ih (i + 1)]
    simp only [Except.bind, specContextLoop, specSummaryLine, strAppend_assoc]

theorem specContextLoop_noMarker (slides : List SlideSummary) :
    ∀ i : Nat, specContextLoop (-1) i slides = plainSummaryLines i slides := by
  induction slides with
  | nil =>
    intro i
    have h : ¬ ((i : Int) = -1) := by omega
    simp [specContextLoop, plainSummaryLines, h]
  | cons s rest ih =>
    intro i
    have h : ¬ ((i : Int) = -1) := by omega
    simp only [specContextLoop, plainSummaryLines, if_neg h, ih (i + 1), str_empty_append]

theorem collectTexts_ok : ∀ ps : List JVal, ps.all partShapeOk = true →
    ∃ l, collectTexts ps = .ok l := by
  intro ps
  induction ps with
  | nil => intro _; exact ⟨[], rfl⟩
  | cons p rest ih =>
    intro h
    rw [List.all_cons, Bool.and_eq_true] at h
    obtain ⟨l, hl⟩ := ih h.2
    cases p with
    | obj kvs =>
      simp only [collectTexts, jget, except_bind_ok, hl, except_pure]
      split
      · split
        · exact ⟨_, rfl⟩
        · exact ⟨_, rfl⟩
      · exact ⟨_, rfl⟩
    | null => simp [partShapeOk] at h
    | bool b => simp [partShapeOk] at h
    | num n => simp [partShapeOk] at h
    | fnum lx => simp [partShapeOk] at h
    | str s => simp [partShapeOk] at h
    | arr xs => simp [partShapeOk] at h

theorem findInline_ok : ∀ ps : List JVal, ps.all partShapeOk = true →
    ∃ s, findInline ps = .ok s := by
  intro ps
  induction ps with
  | nil => intro _; exact ⟨"", rfl⟩
  | cons p rest ih =>
    intro h
    rw [List.all_cons, Bool.and_eq_true] at h
    obtain ⟨s0, hs0⟩ := ih h.2
    cases p with
    | obj kvs =>
      have hp := h.1
      simp only [partShapeOk] at hp
      cases hin : pyOr (lookupField kvs "inlineData") (.obj []) with
      | obj inkvs =>
        simp only [findInline, jget, except_bind_ok, hin, hs0, except_pure]
        split
        · split
          · exact ⟨_, rfl⟩
          · exact ⟨_, rfl⟩
        · exact ⟨_, rfl⟩
      | null => rw [hin] at hp; simp at hp
      | bool b => rw [hin] at hp; simp at hp
      | num n => rw [hin] at hp; simp at hp
      | fnum lx => rw [hin] at hp; simp at hp
      | str s => rw [hin] at hp; simp at hp
      | arr xs => rw [hin] at hp; simp at hp
    | null => simp [partShapeOk] at h
    | bool b => simp [partShapeOk] at h
    | num n => simp [partShapeOk] at h
    | fnum lx => simp [partShapeOk] at h
    | str s => simp [partShapeOk] at h
    | arr xs => simp [partShapeOk] at h

theorem extractors_ok_of_wellShaped (resp : JVal) (h : wellShaped resp = true) :
    isOkE (extractText resp) = true ∧ isOkE (extractInlineBase64 resp) = true := by
  cases resp with
  | null => simp [wellShaped] at h
  | bool b => simp [wellShaped] at h
  | num n => simp [wellShaped] at h
  | fnum lx => simp [wellShaped] at h
  | str s => simp [wellShaped] at h
  | arr xs => simp [wellShaped] at h
  | obj kvs =>
    simp only [wellShaped] at h
    split at h
    · rename_i hcand
      constructor
      · simp only [extractText, jget, except_bind_ok, hcand, JVal.truthy, isOkE]
        rfl
      · simp only [extractInlineBase64, jget, except_bind_ok, hcand, JVal.truthy, isOkE]
        rfl
    · rename_i c0 crest hcand
      split at h
      · rename_i ckvs hc0
        split at h
        · rename_i conkvs hcon
          split at h
          · rename_i ps hparts
            obtain ⟨l2, hl2⟩ := collectTexts_ok ps h
            obtain ⟨s2, hs2⟩ := findInline_ok ps h
            constructor
            · simp only [extractText, jget, except_bind_ok, hcand, JVal.truthy,
                Bool.true_eq_false, if_false, pyIndexZero, hc0, hcon, hparts,
                pyIter, hl2, except_pure, isOkE]
            · simp only [extractInlineBase64, jget, except_bind_ok, hcand, JVal.truthy,
                Bool.true_eq_false, if_false, pyIndexZero, hc0, hcon, hparts,
                pyIter, hs2, except_pure, isOkE]
          · exact absurd h (by simp)
        · exact absurd h (by simp)
      · exact absurd h (by simp)
    · exact absurd h (by simp)

/-- Claim C1: for a non-empty `existingSlides` list the rendered
outline-context block iterates `i` from `0` to the slide count inclusive,
emitting the marker line whenever `i` equals `insertIndex` and a summary line
`Slide i+1: title (first 120 chars, newlines as "; ", ...)` whenever a slide
remains; with one slide and `insertIndex = 1` the summary line precedes the
marker; with `insertIndex = -1` no marker appears; with no slides no context
block is built. -/
theorem claim_C1 :
    (∀ (slides : List SlideSummary) (idx : Int),
        singleSlideContextOutline (mkSlidesJVal slides) idx =
          .ok (if slides.isEmpty then ""
               else "\nCurrent Presentation Outline:\n" ++ specContextLoop idx 0 slides))
  ∧ singleSlideContextOutline (mkSlidesJVal [⟨"Intro", "a\nb"⟩]) 1 =
      .ok "\nCurrent Presentation Outline:\nSlide 1: Intro (a; b...)\n>>> [INSERT NEW SLIDE HERE] <<<\n"
  ∧ singleSlideContextOutline (mkSlidesJVal [⟨"Intro", "a\nb"⟩]) (-1) =
      .ok "\nCurrent Presentation Outline:\nSlide 1: Intro (a; b...)\n"
  ∧ containsSub markerText "\nCurrent Presentation Outline:\nSlide 1: Intro (a; b...)\n" = false
  ∧ (∀ idx : Int, singleSlideContextOutline (mkSlidesJVal []) idx = .ok "") := by
  refine ⟨?_, rfl, rfl, rfl, fun _ => rfl⟩
  intro slides idx
  cases slides with
  | nil => rfl
  | cons s rest =>
    rw [show mkSlidesJVal (s :: rest) = .arr ((s :: rest).map slideJVal) from rfl]
    simp only [List.map, singleSlideContextOutline]
    rw [show (slideJVal s :: List.map slideJVal rest) = (s :: rest).map slideJVal from rfl,
        contextLoop_map]
    simp only [except_bind_ok, except_pure, List.isEmpty_cons, Bool.false_eq_true, if_false]

/-- Claim C2: `extractText` concatenates, in order and with no separator, the
text fields of the text parts of `candidates[0].content.parts`; with no
candidates (absent or empty) it returns the empty string; two text parts
`"A"` and `"B"` yield `"AB"`. -/
theorem claim_C2 :
    (∀ ps : List EnvPart, extractText (mkEnvelope ps) = .ok (pyJoin (specTexts ps)))
  ∧ extractText (.obj []) = .ok ""
  ∧ extractText (.obj [("candidates", .arr [])]) = .ok ""
  ∧ extractText (mkEnvelope [.textPart "A", .textPart "B"]) = .ok "AB" :=
  ⟨extractText_mkEnvelope, rfl, rfl, rfl⟩

/-- Claim C3 counterexample: when the first inline-data part carries an empty
data string, `extractInlineBase64` does not return that first part's data (as
the claim states) but skips to the next inline-data part. -/
theorem claim_C3_counterexample :
    extractInlineBase64 (mkEnvelope [.inlineDataPart "image/png" "", .inlineDataPart "image/png" "QkJC"]) = .ok "QkJC"
  ∧ specFirstInline [.inlineDataPart "image/png" "", .inlineDataPart "image/png" "QkJC"] = ""
  ∧ extractInlineBase64 (mkEnvelope [.inlineDataPart "image/png" "", .inlineDataPart "image/png" "QkJC"]) ≠
      .ok (specFirstInline [.inlineDataPart "image/png" "", .inlineDataPart "image/png" "QkJC"]) := by
  refine ⟨rfl, rfl, ?_⟩
  intro h
  rw [show extractInlineBase64 (mkEnvelope [.inlineDataPart "image/png" "", .inlineDataPart "image/png" "QkJC"]) = .ok "QkJC" from rfl,
      show specFirstInline [.inlineDataPart "image/png" "", .inlineDataPart "image/png" "QkJC"] = "" from rfl] at h
  exact absurd (Except.ok.inj h) (by decide)

/-- Claim C3 amended: `extractInlineBase64` returns the data field of the
first inline-data part whose data is a non-empty string, ignoring all later
parts, and returns the empty string when no candidates or no such part is
present. -/
theorem claim_C3_amended :
    (∀ ps : List EnvPart, extractInlineBase64 (mkEnvelope ps) = .ok (specFirstNonemptyInline ps))
  ∧ extractInlineBase64 (.obj []) = .ok ""
  ∧ extractInlineBase64 (.obj [("candidates", .arr [])]) = .ok ""
  ∧ extractInlineBase64 (mkEnvelope [.textPart "x"]) = .ok ""
  ∧ extractInlineBase64 (mkEnvelope [.inlineDataPart "m" "AA", .inlineDataPart "m" "BB"]) = .ok "AA" :=
  ⟨extractInline_mkEnvelope, rfl, rfl, rfl, rfl⟩

/-- Claim C4 counterexample: a structurally malformed envelope whose parts
list contains a non-object element makes both extractors raise
(`AttributeError` on `part.get`), contradicting the claim that they never
raise on any input. -/
theorem claim_C4_counterexample :
    isOkE (extractText (.obj [("candidates", .arr [.obj [("content", .obj [("parts", .arr [.num 5])])]])])) = false
  ∧ isOkE (extractInlineBase64 (.obj [("candidates", .arr [.obj [("content", .obj [("parts", .arr [.num 5])])]])])) = false :=
  ⟨rfl, rfl⟩

/-- Claim C4 amended: on every envelope whose consulted positions are dicts,
lists, or falsy values replaced by the `or` defaults — in particular whose
parts elements are objects with dict-or-falsy `inlineData` — both extractors
return a string and never raise; missing keys (no candidates key, a null
first candidate, missing content or parts) degrade to empty results. -/
theorem claim_C4_amended :
    (∀ resp : JVal, wellShaped resp = true →
        isOkE (extractText resp) = true ∧ isOkE (extractInlineBase64 resp) = true)
  ∧ extractText (.obj [("candidates", .arr [.null])]) = .ok ""
  ∧ extractInlineBase64 (.obj [("candidates", .arr [.null])]) = .ok ""
  ∧ extractText (.obj [("candidates", .arr [.obj []])]) = .ok ""
  ∧ extractInlineBase64 (.obj [("candidates", .arr [.obj [("content", .obj [])]])]) = .ok "" :=
  ⟨extractors_ok_of_wellShaped, rfl, rfl, rfl, rfl⟩

/-- Witness for the amended claim C4 at a concrete well-shaped envelope. -/
theorem claim_C4_witness :
    wellShaped (mkEnvelope [.textPart "A", .inlineDataPart "m" "QUJD"]) = true
  ∧ isOkE (extractText (mkEnvelope [.textPart "A", .inlineDataPart "m" "QUJD"])) = true
  ∧ isOkE (extractInlineBase64 (mkEnvelope [.textPart "A", .inlineDataPart "m" "QUJD"])) = true :=
  ⟨rfl, (claim_C4_amended.1 (mkEnvelope [.textPart "A", .inlineDataPart "m" "QUJD"]) rfl).1,
   (claim_C4_amended.1 (mkEnvelope [.textPart "A", .inlineDataPart "m" "QUJD"]) rfl).2⟩

set_option maxRecDepth 8192 in
/-- Claim C10: `int(payload.get("insertIndex") or -1)` coerces every falsy
insertIndex — `0` included, as well as a missing or null one — to `-1`, so
the context loop never emits a marker for a requested position 0: the prompt
for `insertIndex = 0` equals the prompts for `-1` and for a missing index,
and the context at index `-1` consists of summary lines only, marker-free. -/
theorem claim_C10 :
    (∀ v : JVal, v.truthy = false → pyInt (pyOr v (.num (-1))) = .ok (-1))
  ∧ pyInt (pyOr (.num 0) (.num (-1))) = .ok (-1)
  ∧ (∀ (topic desc : String) (slides : List SlideSummary),
        singleSlidePrompt (mkSingleSlidePayload topic desc slides (.num 0)) =
          singleSlidePrompt (mkSingleSlidePayload topic desc slides (.num (-1))) ∧
        singleSlidePrompt (mkSingleSlidePayload topic desc slides (.num 0)) =
          singleSlidePrompt (mkSingleSlidePayload topic desc slides .null))
  ∧ (∀ slides : List SlideSummary,
        singleSlideContextOutline (mkSlidesJVal slides) (-1) =
          .ok (if slides.isEmpty then ""
               else "\nCurrent Presentation Outline:\n" ++ plainSummaryLines 0 slides))
  ∧ exceptHasSub markerText
      (singleSlidePrompt (mkSingleSlidePayload "T" "D" [⟨"Intro", "a\nb"⟩] (.num 0))) = false := by
  refine ⟨?_, rfl, ?_, ?_, rfl⟩
  · intro v hv
    simp only [pyOr, hv, Bool.false_eq_true, if_false]
    rfl
  · intro topic desc slides
    exact ⟨rfl, rfl⟩
  · intro slides
    cases slides with
    | nil => rfl
    | cons s rest =>
      rw [show mkSlidesJVal (s :: rest) = .arr ((s :: rest).map slideJVal) from rfl]
      simp only [List.map, singleSlideContextOutline]
      rw [show (slideJVal s :: List.map slideJVal rest) = (s :: rest).map slideJVal from rfl,
          contextLoop_map, specContextLoop_noMarker]
      simp only [except_bind_ok, except_pure, List.isEmpty_cons, Bool.false_eq_true, if_false]

/-- Witness for claim C10 at the concrete falsy value `0`. -/
theorem claim_C10_witness :
    JVal.truthy (.num 0) = false ∧ pyInt (pyOr (.num 0) (.num (-1))) = .ok (-1) :=
  ⟨rfl, claim_C10.1 (.num 0) rfl⟩

theorem attachmentLoop_map (atts : List Attachment) :
    attachmentLoop (atts.map attachmentJVal) = .ok (atts.map attachmentPart) := by
  induction atts with
  | nil => rfl
  | cons a rest ih =>
    simp only [List.map, attachmentLoop,
      show jget (attachmentJVal a) "mimeType" = .ok (.str a.mimeType) from rfl,
      show jget (attachmentJVal a) "data" = .ok (.str a.data) from rfl,
      except_bind_ok, ih, except_pure]
    rfl

/-- Claim C5: the outline builder's parts sequence is one inline-data part
per attachment, in input order, followed by exactly one trailing text part
holding the fixed instruction template; an empty or whitespace-only topic
puts the literal phrase "the provided content" in place of the topic. -/
theorem claim_C5 :
    (∀ (topic : String) (atts : List Attachment),
        outlineRequest (mkOutlinePayload topic atts) =
          .ok (.str "gemini-2.5-pro",
               geminiJsonBody (atts.map attachmentPart ++
                 [JVal.obj [("text", .str (outlineInstr (pyStripStr topic)))]])))
  ∧ (∀ topic : String, pyStripStr topic = "" →
        containsSub "the provided content" (outlineInstr (pyStripStr topic)) = true)
  ∧ containsSub "the provided content" (outlineInstr "") = true
  ∧ outlineInstr "" =
      "Create a world-class, award-winning presentation deck for: the provided content.\nReturn ONLY valid JSON (no markdown) as an array of slides with title, content, visualDescription, layout." := by
  refine ⟨?_, ?_, rfl, rfl⟩
  · intro topic atts
    simp only [outlineRequest,
      show jget (mkOutlinePayload topic atts) "topic" = Except.ok (JVal.str topic) from rfl,
      except_bind_ok, pyOr_str_empty,
      show pyStrip (JVal.str topic) = Except.ok (pyStripStr topic) from rfl,
      show jget (mkOutlinePayload topic atts) "attachments" = Except.ok (JVal.arr (atts.map attachmentJVal)) from rfl,
      pyOr_arr_nil,
      show pyIter (JVal.arr (atts.map attachmentJVal)) = Except.ok (atts.map attachmentJVal) from rfl,
      attachmentLoop_map, except_pure]
  · intro topic h
    rw [h]
    rfl

set_option maxRecDepth 8192 in
/-- Claim C6: on the single-slide endpoint, text that fails to parse as JSON
yields status 500 with the exact body "Model did not return valid JSON" — a
fixed constant independent of the raw text, which for the spec's example
"not json" is also not a substring of it — while a successful parse returns
the parsed value with status 200. -/
theorem claim_C6 :
    (∀ raw : String, jsonLoads (pyStripStr raw) = none →
        singleSlideRespondRaw raw = .text 500 "Model did not return valid JSON")
  ∧ (∀ (raw : String) (v : JVal), jsonLoads (pyStripStr raw) = some v →
        singleSlideRespondRaw raw = .json 200 v)
  ∧ jsonLoads (pyStripStr "not json") = none
  ∧ containsSub "not json" "Model did not return valid JSON" = false
  ∧ dispatchPost (fun _ _ => .ok (mkEnvelope [.textPart "not json"])) "/api/single-slide" (.obj []) =
      .text 500 "Model did not return valid JSON" := by
  refine ⟨?_, ?_, rfl, rfl, rfl⟩
  · intro raw h
    simp only [singleSlideRespondRaw, h]
  · intro raw v h
    simp only [singleSlideRespondRaw, h]

/-- Witness for claim C6: the failing and the succeeding parse at concrete
raw texts. -/
theorem claim_C6_witness :
    singleSlideRespondRaw "not json" = .text 500 "Model did not return valid JSON"
  ∧ singleSlideRespondRaw " \x7b\x7d " = .json 200 (.obj []) :=
  ⟨claim_C6.1 "not json" rfl, claim_C6.2.1 " \x7b\x7d " (.obj []) rfl⟩

/-- Claim C7: an upstream HTTP error is forwarded with the upstream's status
code and its body verbatim (a generic message replacing an empty body); any
other exception yields 500 with the exception's message or a generic
fallback; every provider failure on an API path is translated to a response
at the dispatch boundary rather than escaping. -/
theorem claim_C7 :
    (∀ (code : Nat) (body : String), code ≠ 0 → body ≠ "" →
        translateError (.httpError code body) = .text code body)
  ∧ (∀ code : Nat, code ≠ 0 → translateError (.httpError code "") = .text code "Upstream error")
  ∧ (∀ msg : String, msg ≠ "" → translateError (.exn msg) = .text 500 msg)
  ∧ translateError (.exn "") = .text 500 "Server error"
  ∧ (∀ e : PyErr, dispatchPost (fun _ _ => .error e) "/api/enhance-notes" (.obj []) = translateError e)
  ∧ (∀ (code : Nat) (body : String), code ≠ 0 → body ≠ "" →
        dispatchPost (fun _ _ => .error (.httpError code body)) "/api/enhance-notes" (.obj []) =
          .text code body) := by
  refine ⟨?_, ?_, ?_, rfl, ?_, ?_⟩
  · intro code body hc hb
    simp [translateError, hc, hb]
  · intro code hc
    simp [translateError, hc]
  · intro msg hm
    simp [translateError, hm]
  · intro e
    rfl
  · intro code body hc hb
    have h0 : dispatchPost (fun _ _ => .error (.httpError code body)) "/api/enhance-notes" (.obj []) =
        translateError (.httpError code body) := rfl
    rw [h0]
    simp [translateError, hc, hb]

/-- Witness for claim C7 at the spec's 429 example. -/
theorem claim_C7_witness :
    (429 : Nat) ≠ 0 ∧ ("rate limited" : String) ≠ ""
  ∧ translateError (.httpError 429 "rate limited") = .text 429 "rate limited"
  ∧ dispatchPost (fun _ _ => .error (.httpError 429 "rate limited")) "/api/enhance-notes" (.obj []) =
      .text 429 "rate limited" :=
  ⟨by decide, by decide, claim_C7.1 429 "rate limited" (by decide) (by decide),
   claim_C7.2.2.2.2.2 429 "rate limited" (by decide) (by decide)⟩

theorem pyOr_obj_nil (l : List (String × JVal)) : pyOr (.obj l) (.obj []) = .obj l := by
  cases l <;> rfl

theorem imageConfigOf_mk (ar im mo : Option String) :
    imageConfigOf (mkImgConfig ar im mo) =
      .ok (.obj (("aspectRatio", JVal.str (defaultIfEmpty ar "16:9")) ::
        (match im with
         | some s => if s = "" then [] else [("imageSize", JVal.str s)]
         | none => []))) := by
  rcases ar with _ | a <;> rcases im with _ | i <;> rcases mo with _ | m <;>
    simp only [imageConfigOf, mkImgConfig, List.nil_append, List.cons_append,
      List.append_nil, jget, lookupField, except_bind_ok, except_pure,
      defaultIfEmpty, JVal.truthy, pyOr] <;>
    first
      | (split_ifs <;> rfl)
      | (split_ifs <;> simp_all)
      | rfl

theorem pyStr_str (s : String) : pyStr (.str s) = s := rfl

theorem pyStr_pyOr_str (s d : String) :
    pyStr (pyOr (.str s) (.str d)) = defaultIfEmpty (some s) d := by
  rw [pyOr_str]
  by_cases h : s = "" <;> simp [h, defaultIfEmpty, pyStr]

theorem pyOr_mkImgConfig (ar im mo : Option String) :
    pyOr (mkImgConfig ar im mo) (.obj []) = mkImgConfig ar im mo :=
  pyOr_obj_nil _

theorem jget_model_mk (ar im mo : Option String) :
    jget (mkImgConfig ar im mo) "model" =
      .ok (match mo with | some s => JVal.str s | none => JVal.null) := by
  rcases ar with _ | a <;> rcases im with _ | i <;> rcases mo with _ | m <;> rfl

theorem pyOr_model (mo : Option String) :
    pyOr (match mo with | some s => JVal.str s | none => JVal.null)
        (.str "gemini-2.5-flash-image") =
      .str (defaultIfEmpty mo "gemini-2.5-flash-image") := by
  rcases mo with _ | m
  · rfl
  · rw [pyOr_str]
    by_cases h : m = "" <;> simp [h, defaultIfEmpty]

theorem slideImageRequest_shape (vd ti : String) (ar im mo : Option String) :
    ∃ prompt : String, slideImageRequest (mkSlideImagePayload vd ti ar im mo) =
      .ok (.str (defaultIfEmpty mo "gemini-2.5-flash-image"),
           .obj [("contents", .arr [.obj [("role", .str "user"),
                    ("parts", .arr [.obj [("text", .str prompt)]])]]),
                 ("generationConfig", .obj [("imageConfig",
                    .obj (("aspectRatio", JVal.str (defaultIfEmpty ar "16:9")) ::
                      (match im with
                       | some s => if s = "" then [] else [("imageSize", JVal.str s)]
                       | none => [])))])]) := by
  refine ⟨"Ultra-premium, award-winning presentation background image.\n\nVisual Concept: " ++ vd ++
    "\nThematic Context: " ++ ti ++
    "\n\nABSOLUTE REQUIREMENTS:\n- ZERO text, words, letters, numbers, or characters\n- No watermarks, logos, or overlays\n- Suitable as a backdrop for text overlay\n", ?_⟩
  simp only [slideImageRequest,
    show jget (mkSlideImagePayload vd ti ar im mo) "slide" =
      .ok (.obj [("visualDescription", .str vd), ("title", .str ti)]) from rfl,
    show jget (mkSlideImagePayload vd ti ar im mo) "config" = .ok (mkImgConfig ar im mo) from rfl,
    except_bind_ok,
    show pyOr (JVal.obj [("visualDescription", JVal.str vd), ("title", JVal.str ti)]) (JVal.obj []) =
      JVal.obj [("visualDescription", JVal.str vd), ("title", JVal.str ti)] from rfl,
    show jget (JVal.obj [("visualDescription", JVal.str vd), ("title", JVal.str ti)]) "visualDescription" =
      .ok (.str vd) from rfl,
    show jget (JVal.obj [("visualDescription", JVal.str vd), ("title", JVal.str ti)]) "title" =
      .ok (.str ti) from rfl,
    pyOr_str_empty, pyStr, pyOr_mkImgConfig, imageConfigOf_mk, jget_model_mk, pyOr_model,
    except_pure]

theorem themedBackgroundRequest_shape (nm sp pc : String) (ar im mo : Option String) :
    ∃ prompt : String, themedBackgroundRequest (mkThemedPayload nm sp pc ar im mo) =
      .ok (.str (defaultIfEmpty mo "gemini-2.5-flash-image"),
           .obj [("contents", .arr [.obj [("role", .str "user"),
                    ("parts", .arr [.obj [("text", .str prompt)]])]]),
                 ("generationConfig", .obj [("imageConfig",
                    .obj (("aspectRatio", JVal.str (defaultIfEmpty ar "16:9")) ::
                      (match im with
                       | some s => if s = "" then [] else [("imageSize", JVal.str s)]
                       | none => [])))])]) := by
  refine ⟨"Premium presentation background with consistent, cohesive visual theme.\n\nTHEME: " ++ nm ++
    "\n" ++ sp ++ "\n\nPRESENTATION CONTEXT:\n" ++ defaultIfEmpty (some pc) "Professional presentation" ++
    "\n\nABSOLUTE REQUIREMENTS:\n- ZERO text, words, letters, numbers, or characters\n- No watermarks, logos, or overlays\n- Must work across many slides\n", ?_⟩
  simp only [themedBackgroundRequest,
    show jget (mkThemedPayload nm sp pc ar im mo) "theme" =
      .ok (.obj [("name", .str nm), ("promptSnippet", .str sp)]) from rfl,
    show jget (mkThemedPayload nm sp pc ar im mo) "presentationContext" = .ok (.str pc) from rfl,
    show jget (mkThemedPayload nm sp pc ar im mo) "config" = .ok (mkImgConfig ar im mo) from rfl,
    except_bind_ok,
    show pyOr (JVal.obj [("name", JVal.str nm), ("promptSnippet", JVal.str sp)]) (JVal.obj []) =
      JVal.obj [("name", JVal.str nm), ("promptSnippet", JVal.str sp)] from rfl,
    show jget (JVal.obj [("name", JVal.str nm), ("promptSnippet", JVal.str sp)]) "name" =
      .ok (.str nm) from rfl,
    show jget (JVal.obj [("name", JVal.str nm), ("promptSnippet", JVal.str sp)]) "promptSnippet" =
      .ok (.str sp) from rfl,
    pyOr_str_empty, pyStr_str, pyStr_pyOr_str, pyOr_mkImgConfig, imageConfigOf_mk, jget_model_mk,
    pyOr_model, except_pure]

/-- Claim C8 counterexample: a config carrying `imageSize` present but empty
(`""`) yields an imageConfig without the `imageSize` key, and a config with
`model` present but empty yields the default model — so "present" alone, as
the claim states for these two fields, is not enough; the code requires
present and truthy. -/
theorem claim_C8_counterexample :
    hasKey (mkImgConfig none (some "") none) "imageSize" = true
  ∧ imageConfigOf (mkImgConfig none (some "") none) = .ok (.obj [("aspectRatio", .str "16:9")])
  ∧ hasKey (.obj [("aspectRatio", JVal.str "16:9")]) "imageSize" = false
  ∧ hasKey (mkImgConfig none none (some "")) "model" = true
  ∧ Except.map Prod.fst (slideImageRequest (mkSlideImagePayload "" "" none none (some ""))) =
      .ok (.str "gemini-2.5-flash-image") :=
  ⟨rfl, rfl, rfl, rfl, rfl⟩

/-- Claim C8 amended: `imageConfig.aspectRatio` is `config.aspectRatio` when
present and non-empty, else `"16:9"`; the `imageSize` key is present in the
imageConfig iff `config.imageSize` is present and non-empty; the model is
`config.model` when present and non-empty, else `"gemini-2.5-flash-image"` —
for both the slide-image and the themed-background builders. -/
theorem claim_C8_amended :
    (∀ ar im mo : Option String,
        imageConfigOf (mkImgConfig ar im mo) =
          .ok (.obj (("aspectRatio", JVal.str (defaultIfEmpty ar "16:9")) ::
            (match im with
             | some s => if s = "" then [] else [("imageSize", JVal.str s)]
             | none => []))))
  ∧ (∀ (vd ti : String) (ar im mo : Option String),
        Except.map Prod.fst (slideImageRequest (mkSlideImagePayload vd ti ar im mo)) =
          .ok (.str (defaultIfEmpty mo "gemini-2.5-flash-image")))
  ∧ (∀ (nm sp pc : String) (ar im mo : Option String),
        Except.map Prod.fst (themedBackgroundRequest (mkThemedPayload nm sp pc ar im mo)) =
          .ok (.str (defaultIfEmpty mo "gemini-2.5-flash-image")))
  ∧ (∀ (ar im mo : Option String) (icfg : JVal),
        imageConfigOf (mkImgConfig ar im mo) = .ok icfg →
        (hasKey icfg "imageSize" = true ↔ ∃ s, im = some s ∧ s ≠ ""))
  ∧ imageConfigOf (.obj []) = .ok (.obj [("aspectRatio", .str "16:9")])
  ∧ imageConfigOf (mkImgConfig (some "4:3") none none) = .ok (.obj [("aspectRatio", .str "4:3")]) := by
  refine ⟨imageConfigOf_mk, ?_, ?_, ?_, rfl, rfl⟩
  · intro vd ti ar im mo
    obtain ⟨p, hp⟩ := slideImageRequest_shape vd ti ar im mo
    rw [hp]
    rfl
  · intro nm sp pc ar im mo
    obtain ⟨p, hp⟩ := themedBackgroundRequest_shape nm sp pc ar im mo
    rw [hp]
    rfl
  · intro ar im mo icfg h
    rw [imageConfigOf_mk] at h
    have hx := Except.ok.inj h
    subst hx
    rcases im with _ | s
    · simp [hasKey]
    · by_cases hs : s = "" <;> simp [hasKey, hs]

/-- Witness for the amended claim C8 at concrete configs. -/
theorem claim_C8_witness :
    imageConfigOf (mkImgConfig none (some "2K") (some "m9")) =
      .ok (.obj [("aspectRatio", .str "16:9"), ("imageSize", .str "2K")])
  ∧ Except.map Prod.fst (slideImageRequest (mkSlideImagePayload "v" "t" none (some "2K") (some "m9"))) =
      .ok (.str "m9")
  ∧ (hasKey (.obj [("aspectRatio", JVal.str "16:9"), ("imageSize", JVal.str "2K")]) "imageSize" = true ↔
      ∃ s, (some "2K" : Option String) = some s ∧ s ≠ "") := by
  refine ⟨?_, ?_, ?_⟩
  · have h := claim_C8_amended.1 none (some "2K") (some "m9")
    simpa using h
  · have h := claim_C8_amended.2.1 "v" "t" none (some "2K") (some "m9")
    simpa using h
  · exact claim_C8_amended.2.2.2.1 none (some "2K") (some "m9") _
      (claim_C8_amended.1 none (some "2K") (some "m9"))

/-- Claim C9: whenever the provider returns an envelope from which inline
extraction yields `s` (possibly empty), the slide-image and the
themed-background endpoints respond 200 with body `{"data": s}` — an empty
extraction is a success with empty payload, never an error. -/
theorem claim_C9 :
    (∀ (vd ti : String) (ar im mo : Option String) (resp : JVal) (s : String),
        extractInlineBase64 resp = .ok s →
        dispatchPost (fun _ _ => .ok resp) "/api/slide-image" (mkSlideImagePayload vd ti ar im mo) =
          .json 200 (.obj [("data", .str s)]))
  ∧ (∀ (nm sp pc : String) (ar im mo : Option String) (resp : JVal) (s : String),
        extractInlineBase64 resp = .ok s →
        dispatchPost (fun _ _ => .ok resp) "/api/themed-background" (mkThemedPayload nm sp pc ar im mo) =
          .json 200 (.obj [("data", .str s)]))
  ∧ dispatchPost (fun _ _ => .ok (mkEnvelope [])) "/api/slide-image" (.obj []) =
      .json 200 (.obj [("data", .str "")])
  ∧ dispatchPost (fun _ _ => .ok (mkEnvelope [.textPart "no image"])) "/api/themed-background" (.obj []) =
      .json 200 (.obj [("data", .str "")]) := by
  refine ⟨?_, ?_, rfl, rfl⟩
  · intro vd ti ar im mo resp s h
    obtain ⟨p, hp⟩ := slideImageRequest_shape vd ti ar im mo
    simp only [dispatchPost,
      show postApi (fun _ _ => Except.ok resp) "/api/slide-image" (mkSlideImagePayload vd ti ar im mo) =
        slideImageStep (fun _ _ => Except.ok resp) (mkSlideImagePayload vd ti ar im mo) from rfl,
      slideImageStep, hp, except_bind_ok, h, except_pure]
  · intro nm sp pc ar im mo resp s h
    obtain ⟨p, hp⟩ := themedBackgroundRequest_shape nm sp pc ar im mo
    simp only [dispatchPost,
      show postApi (fun _ _ => Except.ok resp) "/api/themed-background" (mkThemedPayload nm sp pc ar im mo) =
        themedBackgroundStep (fun _ _ => Except.ok resp) (mkThemedPayload nm sp pc ar im mo) from rfl,
      themedBackgroundStep, hp, except_bind_ok, h, except_pure]

/-- Witness for claim C9 at a concrete envelope carrying base64 data. -/
theorem claim_C9_witness :
    extractInlineBase64 (mkEnvelope [.inlineDataPart "image/png" "QUJD"]) = .ok "QUJD"
  ∧ dispatchPost (fun _ _ => .ok (mkEnvelope [.inlineDataPart "image/png" "QUJD"])) "/api/slide-image"
      (mkSlideImagePayload "v" "t" none none none) = .json 200 (.obj [("data", .str "QUJD")])
  ∧ dispatchPost (fun _ _ => .ok (mkEnvelope [.inlineDataPart "image/png" "QUJD"])) "/api/themed-background"
      (mkThemedPayload "n" "s" "p" none none none) = .json 200 (.obj [("data", .str "QUJD")]) :=
  ⟨rfl,
   claim_C9.1 "v" "t" none none none (mkEnvelope [.inlineDataPart "image/png" "QUJD"]) "QUJD" rfl,
   claim_C9.2.1 "n" "s" "p" none none none (mkEnvelope [.inlineDataPart "image/png" "QUJD"]) "QUJD" rfl⟩

/-- Witness for claim C5 at a whitespace-only topic. -/
theorem claim_C5_witness :
    pyStripStr " " = ""
  ∧ containsSub "the provided content" (outlineInstr (pyStripStr " ")) = true :=
  ⟨rfl, claim_C5.2.1 " " rfl⟩
